import Mathlib

/-!
Verification of the Switch_Swapout_Checker text-processing core
(`process_cdp_neighbors.py`, `process_mac_address_table.py`).

The Python functions are shallowly embedded: strings are Lean `String`s,
Python's `str.splitlines` / `str.strip` / `str.split()` / `str.startswith` /
`in` are modelled character-for-character (line boundaries `\n`, `\r\n`, `\r`;
whitespace is the ASCII whitespace set), and every function is total, mirroring
the fact that the Python code raises no exceptions on any input.
-/

namespace Swapout

/-- ASCII whitespace, as recognised by Python's `str.isspace` / `str.strip`
on the inputs this tool handles. -/
def pyIsSpace (c : Char) : Bool :=
  c == ' ' || c == '\t' || c == '\n' || c == '\r' || c == '\x0B' || c == '\x0C'

/-- Python `str.strip()`: drop leading and trailing whitespace. -/
def pyStrip (s : String) : String :=
  ⟨((s.data.dropWhile pyIsSpace).reverse.dropWhile pyIsSpace).reverse⟩

/-- Python `s.startswith(pre)`. -/
def pyStartsWith (s pre : String) : Bool :=
  pre.data.isPrefixOf s.data

/-- Helper for `splitlines`: accumulate the current line (reversed) while
scanning; `\r\n` counts as a single line boundary. -/
def splitlinesAux : List Char → List Char → List String
  | [], acc => if acc.isEmpty then [] else [⟨acc.reverse⟩]
  | '\r' :: '\n' :: rest, acc => ⟨acc.reverse⟩ :: splitlinesAux rest []
  | '\n' :: rest, acc => ⟨acc.reverse⟩ :: splitlinesAux rest []
  | '\r' :: rest, acc => ⟨acc.reverse⟩ :: splitlinesAux rest []
  | c :: rest, acc => splitlinesAux rest (c :: acc)

/-- Python `str.splitlines()` (line boundaries `\n`, `\r\n`, `\r`;
no trailing empty line). -/
def splitlines (s : String) : List String :=
  splitlinesAux s.data []

/-- Helper for `pySplit`: split on runs of whitespace, discarding empties. -/
def pySplitAux : List Char → List Char → List String
  | [], acc => if acc.isEmpty then [] else [⟨acc.reverse⟩]
  | c :: rest, acc =>
    if pyIsSpace c then
      if acc.isEmpty then pySplitAux rest [] else ⟨acc.reverse⟩ :: pySplitAux rest []
    else
      pySplitAux rest (c :: acc)

/-- Python `str.split()` with no argument: whitespace-delimited tokens. -/
def pySplit (s : String) : List String :=
  pySplitAux s.data []

/-- Contiguous-sublist test on character lists, mirroring Python's `in`. -/
def hasInfix (sub : List Char) : List Char → Bool
  | [] => sub.isEmpty
  | c :: rest => sub.isPrefixOf (c :: rest) || hasInfix sub rest

/-- Python `sub in s`: substring containment. -/
def pyContains (s sub : String) : Bool :=
  hasInfix sub.data s.data

/-! ### `merge_wrapped_lines` (process_cdp_neighbors.py, lines 1-25) -/

/-- The loop body of `merge_wrapped_lines`: blank lines are skipped, a line
whose first character is whitespace extends the accumulator, any other line
flushes a non-empty accumulator and starts a new one; the final accumulator is
flushed at end of input. -/
def mergeAux : List String → String → List String
  | [], current => if current.data.isEmpty then [] else [current]
  | line :: rest, current =>
    if (pyStrip line).data.isEmpty then
      mergeAux rest current
    else if pyIsSpace (line.data.headD 'A') then
      mergeAux rest (current ++ " " ++ pyStrip line)
    else if current.data.isEmpty then
      mergeAux rest (pyStrip line)
    else
      current :: mergeAux rest (pyStrip line)

/-- `merge_wrapped_lines(raw_output)`: reassemble wrapped physical lines into
logical lines. -/
def merge_wrapped_lines (raw : String) : List String :=
  mergeAux (splitlines raw) ""

/-! ### `process_cdp_neighbors` (process_cdp_neighbors.py, lines 27-175) -/

/-- A merged line that becomes the report's top line. -/
def isTopLine (l : String) : Bool :=
  pyStartsWith l "Total cdp entries displayed"

/-- A merged line that goes to the report's bottom bucket. -/
def isBottomLine (l : String) : Bool :=
  pyStartsWith l "Capability Codes:" || pyStartsWith l "Device ID"

/-- The `top_line` variable after the separation loop: each matching line
overwrites the previous one, so the last match wins. -/
def findTopLine (ls : List String) : Option String :=
  ls.foldl (fun acc l => if isTopLine l then some l else acc) none

def sav_keywords : List String :=
  ["sav01", "sav02", "sav03", "CBS350", "SAV01", "SAV02", "SAV03"]

def uplink_keywords : List String :=
  ["LBDS", "BDS", "SBDS", "HDS", "CPDS"]

def wap_models : List String :=
  ["C9120AXI", "C9130A", "C9120A", "CW9166I", "AIR-AP"]

def phone_keyword : String := "T33"

/-- `any(keyword in line for keyword in ks)`. -/
def matchesAny (l : String) (ks : List String) : Bool :=
  ks.any (fun k => pyContains l k)

/-- The five categories of the neighbor report's classification loop. -/
inductive Category where
  | sav
  | uplink
  | wap
  | phone
  | unsorted
deriving DecidableEq

/-- The if/elif chain of the classification loop: first match wins, in the
order sav switches, uplinks, WAPs, phone handsets, unsorted. -/
def classify (l : String) : Category :=
  if matchesAny l sav_keywords then Category.sav
  else if matchesAny l uplink_keywords then Category.uplink
  else if matchesAny l wap_models then Category.wap
  else if pyContains l phone_keyword then Category.phone
  else Category.unsorted

/-- The merged lines of the raw neighbor output. -/
def mergedOf (raw : String) : List String :=
  merge_wrapped_lines raw

/-- The `main_lines` bucket: merged lines that are neither top nor bottom. -/
def mainLinesOf (raw : String) : List String :=
  (mergedOf raw).filter (fun l => !isTopLine l && !isBottomLine l)

/-- The `bottom_lines` bucket, in input order. -/
def bottomLinesOf (raw : String) : List String :=
  (mergedOf raw).filter (fun l => !isTopLine l && isBottomLine l)

/-- The `top_line` variable for a given raw input. -/
def topLineOf (raw : String) : Option String :=
  findTopLine (mergedOf raw)

/-- The main lines landing in category `c`. -/
def catLinesOf (raw : String) (c : Category) : List String :=
  (mainLinesOf raw).filter (fun l => classify l = c)

def wapsOf (raw : String) : List String := catLinesOf raw Category.wap

def phonesOf (raw : String) : List String := catLinesOf raw Category.phone

def savSwitchesOf (raw : String) : List String := catLinesOf raw Category.sav

def uplinksOf (raw : String) : List String := catLinesOf raw Category.uplink

def unsortedOf (raw : String) : List String := catLinesOf raw Category.unsorted

/-- `if lines: extend(lines) else: append(placeholder)`. -/
def sectionBody (ls : List String) (placeholder : String) : List String :=
  if ls.isEmpty then [placeholder] else ls

/-- The top of the report: the recorded top line if truthy, else the
placeholder. -/
def topSection (raw : String) : List String :=
  match topLineOf raw with
  | some t => if t.data.isEmpty then ["Total cdp entries displayed: N/A"] else [t]
  | none => ["Total cdp entries displayed: N/A"]

/-- The WAP count line, from `len(waps)`. -/
def wapsCountLine (raw : String) : String :=
  "Total number of WAPs: " ++ toString (wapsOf raw).length

/-- The phone-handset count line, from `len(phone_handsets)`. -/
def phonesCountLine (raw : String) : String :=
  "Total number of Phone Handsets: " ++ toString (phonesOf raw).length

/-- The `output_sections` list of `process_cdp_neighbors`, in assembly order. -/
def cdpOutputSections (raw : String) : List String :=
  topSection raw
    ++ ["", ""]
    ++ ["WAPs:"] ++ sectionBody (wapsOf raw) "No WAP entries found."
    ++ [wapsCountLine raw]
    ++ ["\nPhone Handsets:"] ++ sectionBody (phonesOf raw) "No phone handset entries found."
    ++ [phonesCountLine raw]
    ++ ["\nsav switches:"] ++ sectionBody (savSwitchesOf raw) "No sav switch entries found."
    ++ ["\nuplink to distribution layer:"]
    ++ sectionBody (uplinksOf raw) "No uplink entries found."
    ++ ["\nUnsorted:"] ++ sectionBody (unsortedOf raw) "No unsorted entries found."
    ++ ["", "", ""]
    ++ sectionBody (bottomLinesOf raw) "No bottom special lines found."

/-- `process_cdp_neighbors(raw_output)`. -/
def process_cdp_neighbors (raw : String) : String :=
  String.intercalate "\n" (cdpOutputSections raw)

/-! ### `get_trunk_interfaces`, `normalize_interface_name`,
`process_mac_address_table` (process_mac_address_table.py) -/

/-- The scanning loop of `get_trunk_interfaces`: everything up to and
including the header row (stripped content starting with "Port") is
discarded; afterwards the first whitespace-delimited token of each non-blank
line is collected. -/
def getTrunkAux : List String → Bool → List String
  | [], _ => []
  | line :: rest, headerFound =>
    if !headerFound then
      getTrunkAux rest (pyStartsWith (pyStrip line) "Port")
    else if (pyStrip line).data.isEmpty then
      getTrunkAux rest headerFound
    else
      match pySplit line with
      | [] => getTrunkAux rest headerFound
      | p :: _ => p :: getTrunkAux rest headerFound

/-- `get_trunk_interfaces(raw_trunk_output)`. -/
def get_trunk_interfaces (raw : String) : List String :=
  getTrunkAux (splitlines raw) false

/-- `normalize_interface_name(interface)`: expand the first matching
two-letter abbreviation, checked in the order Po, Gi, Te, Fa. -/
def normalize_interface_name (intf : String) : String :=
  if pyStartsWith intf "Po" then "Port-channel" ++ ⟨intf.data.drop 2⟩
  else if pyStartsWith intf "Gi" then "GigabitEthernet" ++ ⟨intf.data.drop 2⟩
  else if pyStartsWith intf "Te" then "TenGigabitEthernet" ++ ⟨intf.data.drop 2⟩
  else if pyStartsWith intf "Fa" then "FastEthernet" ++ ⟨intf.data.drop 2⟩
  else intf

/-- `trunk_check_set`: the raw trunk identifiers together with their
normalized forms (membership is all that matters, so a list models the set). -/
def trunk_check_set (raw_trunk : String) : List String :=
  get_trunk_interfaces raw_trunk
    ++ (get_trunk_interfaces raw_trunk).map normalize_interface_name

def header_keywords : List String := ["Mac Address", "Vlan", "----"]

/-- A MAC-table line filtered out as noise: any header keyword, or "CPU". -/
def isNoiseLine (l : String) : Bool :=
  header_keywords.any (fun k => pyContains l k) || pyContains l "CPU"

/-- The `data_lines` of `process_mac_address_table`: non-blank lines that
are not noise. -/
def macDataLines (raw_mac : String) : List String :=
  ((splitlines raw_mac).filter (fun l => !(pyStrip l).data.isEmpty)).filter
    (fun l => !isNoiseLine l)

/-- `parts[-1]` of a data line, `none` when `split()` is empty (in which case
the Python loop skips the line). -/
def macPort (l : String) : Option String :=
  (pySplit l).getLast?

/-- The `remote_macs` list: data lines whose last token is in the check set. -/
def remote_macs (raw_mac raw_trunk : String) : List String :=
  (macDataLines raw_mac).filter (fun l =>
    match macPort l with
    | none => false
    | some p => decide (p ∈ trunk_check_set raw_trunk))

/-- The `local_macs` list: data lines whose last token is not in the check
set. -/
def local_macs (raw_mac raw_trunk : String) : List String :=
  (macDataLines raw_mac).filter (fun l =>
    match macPort l with
    | none => false
    | some p => !decide (p ∈ trunk_check_set raw_trunk))

/-- The `output_sections` list of `process_mac_address_table`. -/
def macOutputSections (raw_mac raw_trunk : String) : List String :=
  ["local mac addresses:"]
    ++ sectionBody (local_macs raw_mac raw_trunk) "No local mac addresses found."
    ++ ["\nremotely learned mac addresses:"]
    ++ sectionBody (remote_macs raw_mac raw_trunk) "No remotely learned mac addresses found."

/-- `process_mac_address_table(raw_mac_output, raw_trunk_output)`. -/
def process_mac_address_table (raw_mac raw_trunk : String) : String :=
  String.intercalate "\n" (macOutputSections raw_mac raw_trunk)

/-! ### Helper lemmas -/

theorem hasInfix_iff (sub hay : List Char) : hasInfix sub hay = true ↔ sub <:+: hay := by
  induction hay with
  | nil => simp [hasInfix, List.isEmpty_iff]
  | cons c rest ih =>
    simp [hasInfix, List.isPrefixOf_iff_prefix, ih, List.infix_cons_iff]

theorem pyContains_iff (s sub : String) : pyContains s sub = true ↔ sub.data <:+: s.data :=
  hasInfix_iff sub.data s.data

theorem pySplitAux_infix (cs : List Char) :
    ∀ acc t, t ∈ pySplitAux cs acc → t.data <:+: (acc.reverse ++ cs) := by
  induction cs with
  | nil =>
    intro acc t ht
    simp only [pySplitAux] at ht
    split at ht
    · simp at ht
    · simp only [List.mem_singleton] at ht
      subst ht
      simp
  | cons c rest ih =>
    intro acc t ht
    simp only [pySplitAux] at ht
    split at ht
    · split at ht
      · have := ih [] t ht
        simp only [List.reverse_nil, List.nil_append] at this
        exact this.trans ⟨acc.reverse ++ [c], [], by simp⟩
      · rcases List.mem_cons.mp ht with h | h
        · subst h
          exact ⟨[], c :: rest, by simp⟩
        · have := ih [] t h
          simp only [List.reverse_nil, List.nil_append] at this
          exact this.trans ⟨acc.reverse ++ [c], [], by simp⟩
    · have := ih (c :: acc) t ht
      simpa [List.append_assoc] using this

theorem pySplit_infix (s t : String) (ht : t ∈ pySplit s) : t.data <:+: s.data := by
  simpa using pySplitAux_infix s.data [] t ht

theorem pySplitAux_eq_nil (cs : List Char) :
    ∀ acc, pySplitAux cs acc = [] → acc.isEmpty = true ∧ ∀ c ∈ cs, pyIsSpace c = true := by
  induction cs with
  | nil =>
    intro acc h
    simp only [pySplitAux] at h
    split at h
    · exact ⟨by assumption, by simp⟩
    · simp at h
  | cons c rest ih =>
    intro acc h
    simp only [pySplitAux] at h
    split at h
    · split at h
      · obtain ⟨-, hrest⟩ := ih [] h
        refine ⟨by assumption, ?_⟩
        intro x hx
        rcases List.mem_cons.mp hx with rfl | hx
        · assumption
        · exact hrest x hx
      · simp at h
    · obtain ⟨hacc, -⟩ := ih (c :: acc) h
      simp at hacc

theorem pySplit_ne_nil_of_strip (l : String)
    (h : (pyStrip l).data.isEmpty = false) : pySplit l ≠ [] := by
  intro hnil
  obtain ⟨-, hall⟩ := pySplitAux_eq_nil l.data [] hnil
  have hdrop : l.data.dropWhile pyIsSpace = [] :=
    List.dropWhile_eq_nil_iff.mpr (by simpa using hall)
  simp [pyStrip, hdrop] at h

theorem macPort_isSome_of_mem {raw_mac l : String} (hl : l ∈ macDataLines raw_mac) :
    ∃ p, macPort l = some p := by
  have hblank := (List.mem_filter.mp (List.mem_filter.mp hl).1).2
  have hne : pySplit l ≠ [] :=
    pySplit_ne_nil_of_strip l (by simpa using hblank)
  rcases hp : (pySplit l).getLast? with - | p
  · exact absurd (List.getLast?_eq_none_iff.mp hp) hne
  · exact ⟨p, hp⟩

theorem noise_not_mem_macDataLines {raw_mac l : String} (hn : isNoiseLine l = true) :
    l ∉ macDataLines raw_mac := by
  intro hmem
  have := (List.mem_filter.mp hmem).2
  simp [hn] at this

theorem filter_length_partition {α : Type} (p q : α → Bool) (ls : List α)
    (h : ∀ x ∈ ls, p x = !q x) :
    (ls.filter p).length + (ls.filter q).length = ls.length := by
  induction ls with
  | nil => simp
  | cons a t ih =>
    have ha := h a (by simp)
    have iht := ih (fun x hx => h x (by simp [hx]))
    cases hq : q a <;> rw [hq] at ha <;> simp [List.filter_cons, ha, hq] <;> omega

theorem classify_count (ls : List String) :
    (ls.filter (fun l => classify l = Category.wap)).length
      + (ls.filter (fun l => classify l = Category.phone)).length
      + (ls.filter (fun l => classify l = Category.sav)).length
      + (ls.filter (fun l => classify l = Category.uplink)).length
      + (ls.filter (fun l => classify l = Category.unsorted)).length
      = ls.length := by
  induction ls with
  | nil => simp
  | cons a t ih =>
    cases h : classify a <;> simp [List.filter_cons, h] <;> omega

theorem foldlTop_const (ls : List String) :
    ∀ acc, (∀ l ∈ ls, isTopLine l = false) →
      ls.foldl (fun a l => if isTopLine l then some l else a) acc = acc := by
  induction ls with
  | nil => intro acc _; rfl
  | cons x t ih =>
    intro acc h
    have hx : isTopLine x = false := h x (by simp)
    simp only [List.foldl_cons, hx, Bool.false_eq_true, if_false]
    exact ih acc (fun l hl => h l (by simp [hl]))

theorem findTopLine_eq_none (ls : List String) (h : ∀ l ∈ ls, isTopLine l = false) :
    findTopLine ls = none :=
  foldlTop_const ls none h

theorem getTrunkAux_eq_nil (ls : List String)
    (h : ∀ l ∈ ls, pyStartsWith (pyStrip l) "Port" = false) :
    getTrunkAux ls false = [] := by
  induction ls with
  | nil => rfl
  | cons x t ih =>
    have hx := h x (by simp)
    simp only [getTrunkAux, Bool.not_false, if_true, hx]
    exact ih (fun l hl => h l (by simp [hl]))

/-! ### Claim theorems -/

/-- Claim C1: `process_mac_address_table` classifies a surviving data line as
remote exactly when its last whitespace-delimited token belongs to the trunk
check set (raw trunk identifiers together with their normalized forms), and
as local otherwise; concretely, a MAC line ending in token "Gi8/1" lands in
the remote section when the trunk listing contains "Gi8/1" under a "Port"
header, and in the local section when the trunk input is empty. -/
theorem mac_classification_by_trunk_membership :
    (∀ raw_mac raw_trunk l p, l ∈ macDataLines raw_mac → macPort l = some p →
      ((l ∈ remote_macs raw_mac raw_trunk ↔ p ∈ trunk_check_set raw_trunk) ∧
       (l ∈ local_macs raw_mac raw_trunk ↔ p ∉ trunk_check_set raw_trunk)))
    ∧ process_mac_address_table "1    0011.2233.4455    DYNAMIC     Gi8/1"
        "Port        Mode\nGi8/1      on"
      = "local mac addresses:\nNo local mac addresses found.\n\nremotely learned mac addresses:\n1    0011.2233.4455    DYNAMIC     Gi8/1"
    ∧ process_mac_address_table "1    0011.2233.4455    DYNAMIC     Gi8/1" ""
      = "local mac addresses:\n1    0011.2233.4455    DYNAMIC     Gi8/1\n\nremotely learned mac addresses:\nNo remotely learned mac addresses found." := by
  refine ⟨?_, by decide, by decide⟩
  intro raw_mac raw_trunk l p hl hp
  constructor
  · simp [remote_macs, List.mem_filter, hl, hp]
  · simp [local_macs, List.mem_filter, hl, hp]

/-- Witness for C1 at the concrete scenario-B inputs. -/
theorem mac_classification_by_trunk_membership_witness :
    ("1    0011.2233.4455    DYNAMIC     Gi8/1"
        ∈ remote_macs "1    0011.2233.4455    DYNAMIC     Gi8/1"
            "Port        Mode\nGi8/1      on"
      ↔ "Gi8/1" ∈ trunk_check_set "Port        Mode\nGi8/1      on")
    ∧ ("1    0011.2233.4455    DYNAMIC     Gi8/1"
        ∈ local_macs "1    0011.2233.4455    DYNAMIC     Gi8/1"
            "Port        Mode\nGi8/1      on"
      ↔ "Gi8/1" ∉ trunk_check_set "Port        Mode\nGi8/1      on") :=
  mac_classification_by_trunk_membership.1
    "1    0011.2233.4455    DYNAMIC     Gi8/1"
    "Port        Mode\nGi8/1      on"
    "1    0011.2233.4455    DYNAMIC     Gi8/1"
    "Gi8/1" (by decide) (by decide)

/-- Claim C2 counterexample: an already-canonical interface name beginning
with a known abbreviation is NOT returned unchanged: "Port-channel1" starts
with "Po" and is re-expanded to "Port-channelrt-channel1"; likewise
"GigabitEthernet8/1" becomes "GigabitEthernetgabitEthernet8/1". -/
theorem normalize_canonical_not_fixed_counterexample :
    normalize_interface_name "Port-channel1" = "Port-channelrt-channel1"
    ∧ normalize_interface_name "Port-channel1" ≠ "Port-channel1"
    ∧ normalize_interface_name "GigabitEthernet8/1" = "GigabitEthernetgabitEthernet8/1"
    ∧ normalize_interface_name "GigabitEthernet8/1" ≠ "GigabitEthernet8/1" := by
  decide

/-- Claim C2 (amended): `normalize_interface_name` substitutes the first
matching abbreviation among Po, Gi, Te, Fa (checked in that order) by its
long form, preserving the rest of the string; a string starting with none of
the four abbreviations (e.g. "Vlan10") is returned unchanged; "Po1" maps to
"Port-channel1" and "Gi8/1" to "GigabitEthernet8/1". -/
theorem normalize_interface_name_amended :
    (∀ s, pyStartsWith s "Po" = true →
      normalize_interface_name s = "Port-channel" ++ ⟨s.data.drop 2⟩)
    ∧ (∀ s, pyStartsWith s "Po" = false → pyStartsWith s "Gi" = true →
      normalize_interface_name s = "GigabitEthernet" ++ ⟨s.data.drop 2⟩)
    ∧ (∀ s, pyStartsWith s "Po" = false → pyStartsWith s "Gi" = false →
        pyStartsWith s "Te" = true →
      normalize_interface_name s = "TenGigabitEthernet" ++ ⟨s.data.drop 2⟩)
    ∧ (∀ s, pyStartsWith s "Po" = false → pyStartsWith s "Gi" = false →
        pyStartsWith s "Te" = false → pyStartsWith s "Fa" = true →
      normalize_interface_name s = "FastEthernet" ++ ⟨s.data.drop 2⟩)
    ∧ (∀ s, pyStartsWith s "Po" = false → pyStartsWith s "Gi" = false →
        pyStartsWith s "Te" = false → pyStartsWith s "Fa" = false →
      normalize_interface_name s = s)
    ∧ normalize_interface_name "Po1" = "Port-channel1"
    ∧ normalize_interface_name "Gi8/1" = "GigabitEthernet8/1"
    ∧ normalize_interface_name "Vlan10" = "Vlan10" := by
  refine ⟨?_, ?_, ?_, ?_, ?_, by decide, by decide, by decide⟩ <;>
    intro s <;> intros <;> simp [normalize_interface_name, *]

/-- Witness for the amended C2 at concrete inputs. -/
theorem normalize_interface_name_amended_witness :
    normalize_interface_name "XX0" = "XX0" :=
  normalize_interface_name_amended.2.2.2.2.1 "XX0" (by decide) (by decide)
    (by decide) (by decide)

/-- Claim C3: total coverage. In the neighbor report the five category lists
partition the main lines (their lengths sum to the number of main lines), and
in the MAC report the local and remote lists partition the non-blank,
non-header, non-CPU data lines; this holds for every input, in particular
when several merged lines start with "Total cdp entries displayed". -/
theorem total_coverage_counts :
    (∀ raw, (wapsOf raw).length + (phonesOf raw).length + (savSwitchesOf raw).length
        + (uplinksOf raw).length + (unsortedOf raw).length = (mainLinesOf raw).length)
    ∧ (∀ raw_mac raw_trunk,
        (local_macs raw_mac raw_trunk).length + (remote_macs raw_mac raw_trunk).length
          = (macDataLines raw_mac).length)
    ∧ mainLinesOf "Total cdp entries displayed : 5\nTotal cdp entries displayed : 6\nfoo bar"
        = ["foo bar"]
    ∧ (wapsOf "Total cdp entries displayed : 5\nTotal cdp entries displayed : 6\nfoo bar").length
        + (phonesOf "Total cdp entries displayed : 5\nTotal cdp entries displayed : 6\nfoo bar").length
        + (savSwitchesOf "Total cdp entries displayed : 5\nTotal cdp entries displayed : 6\nfoo bar").length
        + (uplinksOf "Total cdp entries displayed : 5\nTotal cdp entries displayed : 6\nfoo bar").length
        + (unsortedOf "Total cdp entries displayed : 5\nTotal cdp entries displayed : 6\nfoo bar").length
        = 1 := by
  refine ⟨?_, ?_, by decide, by decide⟩
  · intro raw
    exact classify_count (mainLinesOf raw)
  · intro raw_mac raw_trunk
    apply filter_length_partition
    intro x hx
    obtain ⟨p, hp⟩ := macPort_isSome_of_mem hx
    simp [hp]

/-- Claim C4: each main line of the neighbor report gets exactly one category
by first-match precedence over the ordered keyword groups (sav switches,
uplink to distribution layer, WAPs, Phone Handsets, Unsorted), using
case-sensitive substring matching; membership in a category list is exactly
membership in the main lines plus the classification. -/
theorem cdp_first_match_precedence :
    (∀ l,
      (matchesAny l sav_keywords = true → classify l = Category.sav)
      ∧ (matchesAny l sav_keywords = false → matchesAny l uplink_keywords = true →
          classify l = Category.uplink)
      ∧ (matchesAny l sav_keywords = false → matchesAny l uplink_keywords = false →
          matchesAny l wap_models = true → classify l = Category.wap)
      ∧ (matchesAny l sav_keywords = false → matchesAny l uplink_keywords = false →
          matchesAny l wap_models = false → pyContains l phone_keyword = true →
          classify l = Category.phone)
      ∧ (matchesAny l sav_keywords = false → matchesAny l uplink_keywords = false →
          matchesAny l wap_models = false → pyContains l phone_keyword = false →
          classify l = Category.unsorted))
    ∧ (∀ raw l c, l ∈ catLinesOf raw c ↔ l ∈ mainLinesOf raw ∧ classify l = c) := by
  constructor
  · intro l
    refine ⟨?_, ?_, ?_, ?_, ?_⟩ <;> intros <;> simp [classify, *]
  · intro raw l c
    simp [catLinesOf, List.mem_filter]

/-- Witness for C4 at concrete lines, one per keyword group. -/
theorem cdp_first_match_precedence_witness :
    classify "sw CBS350 x" = Category.sav
    ∧ classify "up HDS x" = Category.uplink
    ∧ classify "ap AIR-AP x" = Category.wap
    ∧ classify "ph T33 x" = Category.phone
    ∧ classify "plain device" = Category.unsorted :=
  ⟨(cdp_first_match_precedence.1 "sw CBS350 x").1 (by decide),
   (cdp_first_match_precedence.1 "up HDS x").2.1 (by decide) (by decide),
   (cdp_first_match_precedence.1 "ap AIR-AP x").2.2.1 (by decide) (by decide) (by decide),
   (cdp_first_match_precedence.1 "ph T33 x").2.2.2.1 (by decide) (by decide) (by decide)
     (by decide),
   (cdp_first_match_precedence.1 "plain device").2.2.2.2 (by decide) (by decide)
     (by decide) (by decide)⟩

/-- Claim C5: when no line of the trunk listing has stripped content starting
with "Port", `get_trunk_interfaces` returns the empty list (no error: the
function is total by construction), the membership set is empty, and every
MAC data line is classified as local. -/
theorem trunk_header_missing_degrades_to_local :
    ∀ raw_trunk, (∀ line ∈ splitlines raw_trunk, pyStartsWith (pyStrip line) "Port" = false) →
      get_trunk_interfaces raw_trunk = []
      ∧ trunk_check_set raw_trunk = []
      ∧ ∀ raw_mac, remote_macs raw_mac raw_trunk = []
          ∧ local_macs raw_mac raw_trunk = macDataLines raw_mac := by
  intro raw_trunk h
  have h1 : get_trunk_interfaces raw_trunk = [] :=
    getTrunkAux_eq_nil (splitlines raw_trunk) h
  have h2 : trunk_check_set raw_trunk = [] := by
    simp [trunk_check_set, h1]
  refine ⟨h1, h2, ?_⟩
  intro raw_mac
  constructor
  · apply List.filter_eq_nil_iff.mpr
    intro a _
    cases hp : macPort a <;> simp [hp, h2]
  · apply List.filter_eq_self.mpr
    intro a ha
    obtain ⟨p, hp⟩ := macPort_isSome_of_mem ha
    simp [hp, h2]

/-- Witness for C5 at a concrete header-less trunk listing. -/
theorem trunk_header_missing_degrades_to_local_witness :
    get_trunk_interfaces "no header here\nGi1/1 on"
      = []
    ∧ trunk_check_set "no header here\nGi1/1 on" = []
    ∧ ∀ raw_mac, remote_macs raw_mac "no header here\nGi1/1 on" = []
        ∧ local_macs raw_mac "no header here\nGi1/1 on" = macDataLines raw_mac :=
  trunk_header_missing_degrades_to_local "no header here\nGi1/1 on" (by decide)

/-- Claim C6: `merge_wrapped_lines` skips blank physical lines, appends the
trimmed content of a line starting with whitespace (space-separated) to the
accumulating logical line, starts a new logical line on any other physical
line after flushing a non-empty accumulator, and flushes the final
accumulator; empty input yields the empty sequence, and the physical lines
["Device-A", "  continued", "Device-B"] merge to
["Device-A continued", "Device-B"]. -/
theorem merge_wrapped_lines_behavior :
    (∀ line rest current, (pyStrip line).data.isEmpty = true →
      mergeAux (line :: rest) current = mergeAux rest current)
    ∧ (∀ line rest current, (pyStrip line).data.isEmpty = false →
        pyIsSpace (line.data.headD 'A') = true →
      mergeAux (line :: rest) current = mergeAux rest (current ++ " " ++ pyStrip line))
    ∧ (∀ line rest current, (pyStrip line).data.isEmpty = false →
        pyIsSpace (line.data.headD 'A') = false →
      mergeAux (line :: rest) current
        = (if current.data.isEmpty then [] else [current]) ++ mergeAux rest (pyStrip line))
    ∧ (∀ current, mergeAux [] current = if current.data.isEmpty then [] else [current])
    ∧ merge_wrapped_lines "" = []
    ∧ mergeAux ["Device-A", "  continued", "Device-B"] "" = ["Device-A continued", "Device-B"]
    ∧ merge_wrapped_lines "Device-A\n  continued\nDevice-B"
        = ["Device-A continued", "Device-B"] := by
  refine ⟨?_, ?_, ?_, fun current => rfl, by decide, by decide, by decide⟩
  · intro line rest current h
    simp [mergeAux, h]
  · intro line rest current h hw
    simp only [mergeAux, h, hw]
    simp
  · intro line rest current h hw
    simp only [mergeAux, h, hw]
    cases hc : current.data.isEmpty <;> simp [hc]

/-- Witness for C6: the blank-line-skip equation at a concrete input. -/
theorem merge_wrapped_lines_behavior_witness :
    mergeAux ["   "] "Device-A" = mergeAux [] "Device-A" :=
  merge_wrapped_lines_behavior.1 "   " [] "Device-A" (by decide)

/-- Claim C7: `process_cdp_neighbors` is total (no exception on any input,
by construction), and when no merged line starts with the
"Total cdp entries displayed" marker the report's top line is the
"Total cdp entries displayed: N/A" placeholder; concretely, neighbor input
with one "CBS350" line and one "AIR-AP" line and no marker yields that
placeholder top line, the AIR-AP line as the sole WAPs entry with count 1,
and the CBS350 line in the sav-switches list. -/
theorem cdp_no_marker_placeholder :
    (∀ raw, (∀ l ∈ merge_wrapped_lines raw, isTopLine l = false) →
      topSection raw = ["Total cdp entries displayed: N/A"]
      ∧ (cdpOutputSections raw).head? = some "Total cdp entries displayed: N/A")
    ∧ wapsOf "SwitchA CBS350 Switch\nAP01 AIR-AP 2800" = ["AP01 AIR-AP 2800"]
    ∧ savSwitchesOf "SwitchA CBS350 Switch\nAP01 AIR-AP 2800" = ["SwitchA CBS350 Switch"]
    ∧ wapsCountLine "SwitchA CBS350 Switch\nAP01 AIR-AP 2800" = "Total number of WAPs: 1"
    ∧ (cdpOutputSections "SwitchA CBS350 Switch\nAP01 AIR-AP 2800").head?
        = some "Total cdp entries displayed: N/A" := by
  refine ⟨?_, by decide, by decide, by decide, by decide⟩
  intro raw h
  have htop : topLineOf raw = none :=
    findTopLine_eq_none (mergedOf raw) h
  have hsec : topSection raw = ["Total cdp entries displayed: N/A"] := by
    simp [topSection, htop]
  refine ⟨hsec, ?_⟩
  rw [cdpOutputSections, hsec]
  rfl

/-- Witness for C7 at the concrete marker-less input. -/
theorem cdp_no_marker_placeholder_witness :
    topSection "SwitchA CBS350 Switch\nAP01 AIR-AP 2800"
      = ["Total cdp entries displayed: N/A"]
    ∧ (cdpOutputSections "SwitchA CBS350 Switch\nAP01 AIR-AP 2800").head?
        = some "Total cdp entries displayed: N/A" :=
  cdp_no_marker_placeholder.1 "SwitchA CBS350 Switch\nAP01 AIR-AP 2800" (by decide)

/-- Claim C8: for every input the neighbor report's sections appear in the
fixed order top line (or placeholder), two blank lines, WAPs with trailing
count, Phone Handsets with count, sav switches, uplink to distribution layer,
Unsorted, three blank lines, bottom lines — each empty section replaced by
its placeholder. -/
theorem cdp_report_section_order :
    (∀ raw, cdpOutputSections raw =
      topSection raw ++ ["", ""]
        ++ ["WAPs:"] ++ sectionBody (wapsOf raw) "No WAP entries found."
        ++ [wapsCountLine raw]
        ++ ["\nPhone Handsets:"]
        ++ sectionBody (phonesOf raw) "No phone handset entries found."
        ++ [phonesCountLine raw]
        ++ ["\nsav switches:"] ++ sectionBody (savSwitchesOf raw) "No sav switch entries found."
        ++ ["\nuplink to distribution layer:"]
        ++ sectionBody (uplinksOf raw) "No uplink entries found."
        ++ ["\nUnsorted:"] ++ sectionBody (unsortedOf raw) "No unsorted entries found."
        ++ ["", "", ""] ++ sectionBody (bottomLinesOf raw) "No bottom special lines found.")
    ∧ (∀ raw, topLineOf raw = none → topSection raw = ["Total cdp entries displayed: N/A"])
    ∧ (∀ ls placeholder, ls = [] → sectionBody ls placeholder = [placeholder])
    ∧ (∀ ls placeholder, ls ≠ [] → sectionBody ls placeholder = ls) := by
  refine ⟨fun raw => rfl, ?_, ?_, ?_⟩
  · intro raw h
    simp [topSection, h]
  · intro ls placeholder h
    simp [sectionBody, h]
  · intro ls placeholder h
    simp [sectionBody, h]

/-- Witness for C8: placeholder substitutions at concrete inputs. -/
theorem cdp_report_section_order_witness :
    topSection "" = ["Total cdp entries displayed: N/A"]
    ∧ sectionBody ([] : List String) "No WAP entries found." = ["No WAP entries found."] :=
  ⟨cdp_report_section_order.2.1 "" (by decide),
   cdp_report_section_order.2.2.1 [] "No WAP entries found." rfl⟩

/-- Claim C9: the "Total number of WAPs: N" line of the neighbor report has N
equal to the exact number of lines placed in the WAPs section — zero when the
section holds only the placeholder — and likewise for the Phone Handsets
count; both count lines occur in the report. -/
theorem cdp_count_lines_accurate :
    ∀ raw,
      (wapsCountLine raw = "Total number of WAPs: " ++ toString (wapsOf raw).length)
      ∧ (phonesCountLine raw
          = "Total number of Phone Handsets: " ++ toString (phonesOf raw).length)
      ∧ (wapsOf raw ≠ [] →
          sectionBody (wapsOf raw) "No WAP entries found." = wapsOf raw)
      ∧ (wapsOf raw = [] →
          sectionBody (wapsOf raw) "No WAP entries found." = ["No WAP entries found."]
          ∧ wapsCountLine raw = "Total number of WAPs: 0")
      ∧ (phonesOf raw = [] →
          sectionBody (phonesOf raw) "No phone handset entries found."
              = ["No phone handset entries found."]
          ∧ phonesCountLine raw = "Total number of Phone Handsets: 0")
      ∧ wapsCountLine raw ∈ cdpOutputSections raw
      ∧ phonesCountLine raw ∈ cdpOutputSections raw := by
  intro raw
  refine ⟨rfl, rfl, ?_, ?_, ?_, ?_, ?_⟩
  · intro h
    simp [sectionBody, h]
  · intro h
    refine ⟨by simp [sectionBody, h], ?_⟩
    simp only [wapsCountLine, h]
    rfl
  · intro h
    refine ⟨by simp [sectionBody, h], ?_⟩
    simp only [phonesCountLine, h]
    rfl
  · simp [cdpOutputSections]
  · simp [cdpOutputSections]

/-- Witness for C9 at an input with no WAP or phone lines. -/
theorem cdp_count_lines_accurate_witness :
    sectionBody (wapsOf "") "No WAP entries found." = ["No WAP entries found."]
    ∧ wapsCountLine "" = "Total number of WAPs: 0" :=
  (cdp_count_lines_accurate "").2.2.2.1 (by decide)

/-- Claim C10: `process_mac_address_table` excludes from both sections every
line containing "Mac Address", "Vlan", "----" or "CPU"; consequently a data
entry whose interface field (last token) is a Vlan interface — its token
contains "Vlan" — appears in neither the local nor the remote section. -/
theorem mac_noise_lines_excluded :
    ∀ raw_mac raw_trunk l,
      (isNoiseLine l = true →
        l ∉ local_macs raw_mac raw_trunk ∧ l ∉ remote_macs raw_mac raw_trunk)
      ∧ ((pyContains l "Mac Address" = true ∨ pyContains l "Vlan" = true
          ∨ pyContains l "----" = true ∨ pyContains l "CPU" = true) →
          isNoiseLine l = true)
      ∧ (∀ t, macPort l = some t → pyContains t "Vlan" = true →
          l ∉ local_macs raw_mac raw_trunk ∧ l ∉ remote_macs raw_mac raw_trunk) := by
  intro raw_mac raw_trunk l
  have hnoise : isNoiseLine l = true →
      l ∉ local_macs raw_mac raw_trunk ∧ l ∉ remote_macs raw_mac raw_trunk := by
    intro hn
    constructor
    · intro hmem
      exact noise_not_mem_macDataLines hn (List.mem_filter.mp hmem).1
    · intro hmem
      exact noise_not_mem_macDataLines hn (List.mem_filter.mp hmem).1
  have hany : (pyContains l "Mac Address" = true ∨ pyContains l "Vlan" = true
      ∨ pyContains l "----" = true ∨ pyContains l "CPU" = true) →
      isNoiseLine l = true := by
    intro hor
    rcases hor with h | h | h | h <;> simp [isNoiseLine, header_keywords, h]
  refine ⟨hnoise, hany, ?_⟩
  intro t ht hv
  have htl : t ∈ pySplit l := List.mem_of_mem_getLast? ht
  have hinf : t.data <:+: l.data := pySplit_infix l t htl
  have hsub : ("Vlan" : String).data <:+: l.data :=
    ((pyContains_iff t "Vlan").mp hv).trans hinf
  exact hnoise (hany (Or.inr (Or.inl ((pyContains_iff l "Vlan").mpr hsub))))

/-- Witness for C10 at a concrete Vlan-interface entry. -/
theorem mac_noise_lines_excluded_witness :
    "10 aaaa.bbbb.cccc STATIC Vlan10"
        ∉ local_macs "10 aaaa.bbbb.cccc STATIC Vlan10" ""
    ∧ "10 aaaa.bbbb.cccc STATIC Vlan10"
        ∉ remote_macs "10 aaaa.bbbb.cccc STATIC Vlan10" "" :=
  (mac_noise_lines_excluded "10 aaaa.bbbb.cccc STATIC Vlan10" ""
    "10 aaaa.bbbb.cccc STATIC Vlan10").2.2 "Vlan10" (by decide) (by decide)

end Swapout
